import Mathlib

/-!
# srtdroid JNI glue (`lib/src/main/cpp/glue.cpp`)

A shallow embedding of the native bridge between the managed runtime and the
SRT library.  The SRT library, the JNI environment and the translators declared
in `enums.h` / `structs.h` are not part of `glue.cpp`; they enter the model as
explicit parameters (records of functions), so that every statement below is
about what the entry points of `glue.cpp` do with whatever those collaborators
return.
-/

namespace SrtGlue

/-! ## Log adapter -/

/-- Priorities of the platform log facility, the `android_LogPriority`
enumeration used by `__android_log_print`. -/
inductive AndroidLogPriority
  | ANDROID_LOG_UNKNOWN
  | ANDROID_LOG_DEFAULT
  | ANDROID_LOG_VERBOSE
  | ANDROID_LOG_DEBUG
  | ANDROID_LOG_INFO
  | ANDROID_LOG_WARN
  | ANDROID_LOG_ERROR
  | ANDROID_LOG_FATAL
  | ANDROID_LOG_SILENT
  deriving DecidableEq, Repr

open AndroidLogPriority

/-- One record handed to the platform log facility. -/
structure LogRecord where
  prio : AndroidLogPriority
  tag : String
  text : String
  deriving DecidableEq, Repr

/-- The `TAG` macro of `glue.cpp`. -/
def TAG : String := "SRTJniGlue"

/-- Modelled from the spec: the `LOGE` macro lives in `log.h`, which is absent;
it logs one diagnostic line under the given tag (at error priority). -/
def LOGE (tag text : String) : LogRecord :=
  { prio := ANDROID_LOG_ERROR, tag := tag, text := text }

/-- The numeric values of the SRT log levels (`LOG_CRIT`, ... from
`srt/logging_api.h`, which is absent).  They are the labels of the `switch`. -/
structure SrtLogLevels where
  LOG_CRIT : Int
  LOG_ERR : Int
  LOG_WARNING : Int
  LOG_NOTICE : Int
  LOG_DEBUG : Int
  deriving DecidableEq, Repr

/-- The case labels of a `switch` are pairwise different. -/
def SrtLogLevels.distinct (L : SrtLogLevels) : Prop :=
  L.LOG_CRIT ≠ L.LOG_ERR ∧ L.LOG_CRIT ≠ L.LOG_WARNING ∧ L.LOG_CRIT ≠ L.LOG_NOTICE ∧
  L.LOG_CRIT ≠ L.LOG_DEBUG ∧ L.LOG_ERR ≠ L.LOG_WARNING ∧ L.LOG_ERR ≠ L.LOG_NOTICE ∧
  L.LOG_ERR ≠ L.LOG_DEBUG ∧ L.LOG_WARNING ≠ L.LOG_NOTICE ∧ L.LOG_WARNING ≠ L.LOG_DEBUG ∧
  L.LOG_NOTICE ≠ L.LOG_DEBUG

instance (L : SrtLogLevels) : Decidable L.distinct := by
  unfold SrtLogLevels.distinct; infer_instance

/-- The values the levels have in `syslog.h`. -/
def syslogLevels : SrtLogLevels :=
  { LOG_CRIT := 2, LOG_ERR := 3, LOG_WARNING := 4, LOG_NOTICE := 5, LOG_DEBUG := 7 }

/-- The `switch (level)` of `srt_logger`: the value of `android_log_level`
after it, and the records it logged itself (the `default:` branch). -/
def srt_logger_switch (L : SrtLogLevels) (level : Int) :
    AndroidLogPriority × List LogRecord :=
  if level = L.LOG_CRIT then (ANDROID_LOG_FATAL, [])
  else if level = L.LOG_ERR then (ANDROID_LOG_ERROR, [])
  else if level = L.LOG_WARNING then (ANDROID_LOG_WARN, [])
  else if level = L.LOG_NOTICE then (ANDROID_LOG_INFO, [])
  else if level = L.LOG_DEBUG then (ANDROID_LOG_DEBUG, [])
  else (ANDROID_LOG_UNKNOWN, [LOGE TAG ("Unknown log level " ++ toString level)])

/-- The format `"%s@%d:%s %s"` applied to `file, line, area, message`. -/
def logPayload (file : String) (line : Int) (area message : String) : String :=
  file ++ "@" ++ toString line ++ ":" ++ area ++ " " ++ message

/-- `srt_logger`: the records sent to the platform log, in program order.
The first parameter of the callback (a user pointer) is never read. -/
def srt_logger (L : SrtLogLevels) (level : Int) (file : String) (line : Int)
    (area message : String) : List LogRecord :=
  let sw := srt_logger_switch L level
  sw.2 ++ [{ prio := sw.1, tag := "libsrt", text := logPayload file line area message }]

/-! ## Registration at load time -/

/-- One row of a binding table: name, type descriptor, entry point. -/
structure JNINativeMethod where
  name : String
  signature : String
  fnPtr : String
  deriving DecidableEq, Repr

/-- The class-name macros used by the binding tables and by `JNI_OnLoad`
(they come from `enums.h` / `structs.h`, which are absent). -/
structure ClassNames where
  SRT_CLASS : String
  SRTSOCKET_CLASS : String
  ERROR_CLASS : String
  ERRORTYPE_CLASS : String
  INETSOCKETADDRESS_CLASS : String
  SOCKSTATUS_CLASS : String
  PAIR_CLASS : String
  SOCKOPT_CLASS : String
  MSGCTRL_CLASS : String
  deriving DecidableEq, Repr

def srtMethods : List JNINativeMethod :=
  [ ⟨"nativeStartUp", "()I", "nativeStartUp"⟩,
    ⟨"nativeCleanUp", "()I", "nativeCleanUp"⟩,
    ⟨"nativeSetLogLevel", "(I)V", "nativeSetLogLevel"⟩ ]

def socketMethods (C : ClassNames) : List JNINativeMethod :=
  [ ⟨"nativeSocket", "(Ljava/net/StandardProtocolFamily;II)I", "nativeSocket"⟩,
    ⟨"nativeCreateSocket", "()I", "nativeCreateSocket"⟩,
    ⟨"nativeBind", "(L" ++ C.INETSOCKETADDRESS_CLASS ++ ";)I", "nativeBind"⟩,
    ⟨"nativeGetSockState", "()L" ++ C.SOCKSTATUS_CLASS ++ ";", "nativeGetSockState"⟩,
    ⟨"nativeClose", "()I", "nativeClose"⟩,
    ⟨"nativeListen", "(I)I", "nativeListen"⟩,
    ⟨"nativeAccept", "()L" ++ C.PAIR_CLASS ++ ";", "nativeAccept"⟩,
    ⟨"nativeConnect", "(L" ++ C.INETSOCKETADDRESS_CLASS ++ ";)I", "nativeConnect"⟩,
    ⟨"nativeSetSockOpt", "(IL" ++ C.SOCKOPT_CLASS ++ ";Ljava/lang/Object;)I", "nativeSetSockOpt"⟩,
    ⟨"nativeSend", "([B)I", "nativeSend"⟩,
    ⟨"nativeSendMsg", "([BIZ)I", "nativeSendMsg"⟩,
    ⟨"nativeSendMsg2", "([BL" ++ C.MSGCTRL_CLASS ++ ";)I", "nativeSendMsg2"⟩,
    ⟨"nativeRecv", "(I)[B", "nativeRecv"⟩,
    ⟨"nativeRecvMsg2", "(IL" ++ C.MSGCTRL_CLASS ++ ";)[B", "nativeRecvMsg2"⟩,
    ⟨"nativeSendFile", "(Ljava/lang/String;JJI)J", "nativeSendFile"⟩,
    ⟨"nativeRecvFile", "(Ljava/lang/String;JJI)J", "nativeRecvFile"⟩ ]

def errorMethods (C : ClassNames) : List JNINativeMethod :=
  [ ⟨"nativeGetLastErrorStr", "()Ljava/lang/String;", "nativeGetLastErrorStr"⟩,
    ⟨"nativeGetLastError", "()L" ++ C.ERRORTYPE_CLASS ++ ";", "nativeGetLastError"⟩,
    ⟨"nativeClearLastError", "()V", "nativeClearLastError"⟩ ]

def errorTypeMethods : List JNINativeMethod :=
  [ ⟨"nativeStrError", "()Ljava/lang/String;", "nativeStrError"⟩ ]

/-- The part of the JNI environment that registration talks to.  `FindClass`
yields `none` for `nullptr`; `RegisterNatives` yields the JNI status. -/
structure JNIEnv where
  FindClass : String → Option Nat
  RegisterNatives : Nat → List JNINativeMethod → Nat → Int

/-- The virtual machine handed to `JNI_OnLoad`: the status of `GetEnv` and the
environment it stores. -/
structure JavaVM where
  GetEnvStatus : Int
  env : JNIEnv

def JNI_OK : Int := 0
def JNI_FALSE : Int := 0
def JNI_TRUE : Int := 1
/-- `JNI_VERSION_1_6` is `0x00010006`. -/
def JNI_VERSION_1_6 : Int := 65542

/-- `registerNativeForClassName`: the status and the diagnostics logged. -/
def registerNativeForClassName (env : JNIEnv) (className : String)
    (methods : List JNINativeMethod) (methodsSize : Nat) : Int × List LogRecord :=
  match env.FindClass className with
  | none => (JNI_FALSE, [LOGE TAG ("Unable to find class '" ++ className ++ "'")])
  | some clazz =>
    if env.RegisterNatives clazz methods methodsSize < 0 then
      (JNI_FALSE, [LOGE TAG ("RegisterNatives failed for '" ++ className ++ "'")])
    else
      (JNI_TRUE, [])

/-- `JNI_OnLoad`: the value returned to the runtime and the diagnostics
logged, in program order. -/
def JNI_OnLoad (C : ClassNames) (vm : JavaVM) : Int × List LogRecord :=
  if vm.GetEnvStatus ≠ JNI_OK then
    (vm.GetEnvStatus, [LOGE TAG "GetEnv failed"])
  else
    let env := vm.env
    let r1 := registerNativeForClassName env C.SRT_CLASS srtMethods srtMethods.length
    if r1.1 ≠ JNI_TRUE then
      (-1, r1.2 ++ [LOGE TAG "SRT RegisterNatives failed"])
    else
      let r2 := registerNativeForClassName env C.SRTSOCKET_CLASS (socketMethods C)
        (socketMethods C).length
      if r2.1 ≠ JNI_TRUE then
        (-1, r1.2 ++ r2.2 ++ [LOGE TAG "Socket RegisterNatives failed"])
      else
        let r3 := registerNativeForClassName env C.ERROR_CLASS (errorMethods C)
          (errorMethods C).length
        if r3.1 ≠ JNI_TRUE then
          (-1, r1.2 ++ r2.2 ++ r3.2 ++ [LOGE TAG "Error RegisterNatives failed"])
        else
          let r4 := registerNativeForClassName env C.ERRORTYPE_CLASS errorTypeMethods
            errorTypeMethods.length
          if r4.1 ≠ JNI_TRUE then
            (-1, r1.2 ++ r2.2 ++ r3.2 ++ r4.2 ++ [LOGE TAG "ErrorType RegisterNatives failed"])
          else
            (JNI_VERSION_1_6, r1.2 ++ r2.2 ++ r3.2 ++ r4.2)

/-- A class is registered when its lookup finds it and `RegisterNatives`
reports a non-negative status for its table. -/
def classRegisters (env : JNIEnv) (className : String)
    (methods : List JNINativeMethod) : Prop :=
  ∃ clazz, env.FindClass className = some clazz ∧
    0 ≤ env.RegisterNatives clazz methods methods.length

/-! ## Native memory -/

/-- A native pointer; `0` is `nullptr`. -/
abbrev Ptr := Nat

/-- The fields of a message-control record that the managed class exposes:
flags, TTL, in-order flag, sequence number, message number. -/
structure MsgCtrlFields where
  flags : Int
  msgttl : Int
  inorder : Bool
  pktseq : Int
  msgno : Int
  deriving DecidableEq, Repr

/-- An IPv4 socket address: family, numeric address, port. -/
structure SockAddrIn where
  family : Int
  addr : Nat
  port : Nat
  deriving DecidableEq, Repr

/-- What a native allocation holds.  A `bytes` cell is a `char` array whose
capacity is the length of the list. -/
inductive Cell
  | bytes (bs : List Nat)
  | sockaddr (sa : SockAddrIn)
  | msgctrl (m : MsgCtrlFields)
  deriving DecidableEq, Repr

structure Block where
  addr : Ptr
  cell : Cell
  deriving DecidableEq, Repr

/-- The native allocator: the live blocks, the last address handed out, the
number of bytes `malloc` can still hand out, and every non-null pointer that
was passed to `free` (most recent first). -/
structure Heap where
  live : List Block
  next : Ptr
  room : Nat
  frees : List Ptr
  deriving DecidableEq, Repr

/-- Faults of the native side. -/
inductive Fault
  | outOfBounds (p : Ptr) (index : Nat)
  | badPointer (p : Ptr)
  deriving DecidableEq, Repr

deriving instance DecidableEq for Except

/-- `malloc(size)` for a cell of that size: `nullptr` when the allocator has no
room left, a fresh block otherwise. -/
def Heap.malloc (h : Heap) (size : Nat) (init : Cell) : Ptr × Heap :=
  if h.room < size then (0, h)
  else (h.next + 1,
        { h with live := ⟨h.next + 1, init⟩ :: h.live, next := h.next + 1,
                 room := h.room - size })

/-- `free(p)`: nothing for `nullptr`; otherwise the block leaves the live set. -/
def Heap.free (h : Heap) (p : Ptr) : Heap :=
  if p = 0 then h
  else { h with live := h.live.filter (fun b => b.addr ≠ p), frees := p :: h.frees }

def Heap.read (h : Heap) (p : Ptr) : Option Cell :=
  if p = 0 then none else (h.live.find? (fun b => b.addr = p)).map Block.cell

def Heap.isLive (h : Heap) (p : Ptr) : Bool :=
  h.live.any (fun b => b.addr = p)

/-- Number of times `p` was passed to `free`. -/
def Heap.freeCount (h : Heap) (p : Ptr) : Nat :=
  h.frees.count p

/-- The addresses of the live blocks. -/
def Heap.liveAddrs (h : Heap) : List Ptr :=
  h.live.map Block.addr

def Heap.store (h : Heap) (p : Ptr) (c : Cell) : Heap :=
  { h with live := h.live.map (fun b => if b.addr = p then ⟨p, c⟩ else b) }

/-- The capacity in bytes of the `char` buffer at `p` (`0` when there is none). -/
def Heap.capacity (h : Heap) (p : Ptr) : Nat :=
  match h.read p with
  | some (Cell.bytes bs) => bs.length
  | _ => 0

/-- The store `buf[i] = v`.  The last branch is the out-of-bounds write. -/
def Heap.writeByte (h : Heap) (p : Ptr) (i : Nat) (v : Nat) : Except Fault Heap :=
  match h.read p with
  | some (Cell.bytes bs) =>
    if i < bs.length then .ok (h.store p (Cell.bytes (bs.set i v)))
    else .error (Fault.outOfBounds p i)
  | _ => .error (Fault.badPointer p)

/-- The stores `buf[i] = d0, buf[i+1] = d1, ...` in order. -/
def Heap.writeBytes (h : Heap) (p : Ptr) (i : Nat) : List Nat → Except Fault Heap
  | [] => .ok h
  | v :: vs =>
    match h.writeByte p i v with
    | .ok h1 => Heap.writeBytes h1 p (i + 1) vs
    | .error e => .error e

/-- The loads `buf[0], ..., buf[n-1]`. -/
def Heap.readBytes (h : Heap) (p : Ptr) (n : Nat) : Except Fault (List Nat) :=
  match h.read p with
  | some (Cell.bytes bs) =>
    if n ≤ bs.length then .ok (bs.take n)
    else .error (Fault.outOfBounds p bs.length)
  | _ => if n = 0 then .ok [] else .error (Fault.badPointer p)

def Heap.readSockAddr (h : Heap) (p : Ptr) : Option SockAddrIn :=
  match h.read p with
  | some (Cell.sockaddr sa) => some sa
  | _ => none

def Heap.readMsgCtrl (h : Heap) (p : Ptr) : Option MsgCtrlFields :=
  match h.read p with
  | some (Cell.msgctrl m) => some m
  | _ => none

def Heap.readBytesCell (h : Heap) (p : Ptr) : Option (List Nat) :=
  match h.read p with
  | some (Cell.bytes bs) => some bs
  | _ => none

/-! ## Managed objects -/

/-- Managed-side values as the bridge sees them. -/
inductive JObject
  | null
  | enumValue (name : String)
  | srtSocket (handle : Int)
  | inetSocketAddress (addr : Nat) (port : Nat)
  | boxedInt (v : Int)
  | boxedString (s : String)
  | msgCtrl (m : MsgCtrlFields)
  | byteArray (bytes : List Nat)
  | pair (first second : JObject)
  deriving DecidableEq, Repr

/-- Modelled from the spec: `create_java_pair` lives in `structs.h`, which is
absent; it yields the managed pair of its two arguments. -/
def create_java_pair (first second : JObject) : JObject :=
  JObject.pair first second

def JObject.second : JObject → JObject
  | .pair _ b => b
  | _ => .null

def JObject.first : JObject → JObject
  | .pair a _ => a
  | _ => .null

/-- The translators of `enums.h` and `structs.h`, which are absent: they are
parameters of every entry point.  A translator that hands back a native
scratch buffer does so through the allocator. -/
structure Translators where
  address_family_from_java_to_native : JObject → Int
  srt_sockopt_from_java_to_native : JObject → Int
  srt_socket_from_java_to_native : JObject → Int
  srt_socket_from_native_to_java : Int → JObject
  inet_socket_address_from_java_to_native : JObject → Heap → Ptr × Heap
  inet_socket_address_from_native_to_java : SockAddrIn → Int → JObject
  srt_optval_from_java_to_native : JObject → Int → Heap → (Ptr × Int) × Heap
  srt_msgctrl_from_java_to_native : JObject → Heap → Ptr × Heap

/-! ## The SRT library -/

/-- `SRT_INVALID_SOCK` of `srt/srt.h`. -/
def SRT_INVALID_SOCK : Int := -1

/-- The SRT functions the modelled entry points call, over a library state
`S`.  Pointer arguments arrive as what they point to (`none` for a pointer
that points to nothing, such as `nullptr`); what SRT stores through an output
pointer is part of its result. -/
structure SrtLib (S : Type) where
  srt_socket : S → Int → Int → Int → Int × S
  srt_bind : S → Int → Option SockAddrIn → Nat → Int × S
  srt_connect : S → Int → Option SockAddrIn → Nat → Int × S
  /-- Result: the new handle, the value left in `addrlen`, the peer address. -/
  srt_accept : S → Int → (Int × Int × SockAddrIn) × S
  srt_setsockopt : S → Int → Int → Int → Option (List Nat) → Int → Int × S
  /-- Result: the status and the message-control record after the call. -/
  srt_sendmsg2 : S → Int → List Nat → Int → Option MsgCtrlFields →
    (Int × Option MsgCtrlFields) × S
  /-- Result: the status and the bytes stored at `buf[0], buf[1], ...`. -/
  srt_recv : S → Int → Int → (Int × List Nat) × S
  srt_recvmsg2 : S → Int → Int → Option MsgCtrlFields →
    (Int × List Nat × Option MsgCtrlFields) × S
  srt_clearlasterror : S → S
  srt_getlasterror : S → Int

/-- A call into SRT, with its arguments (pointers as addresses). -/
inductive SrtCall
  | socket (af type protocol : Int)
  | bind (u : Int) (name : Ptr) (namelen : Nat)
  | connect (u : Int) (name : Ptr) (namelen : Nat)
  | accept (u : Int)
  | setsockopt (u level opt : Int) (optval : Ptr) (optlen : Int)
  | sendmsg2 (u : Int) (len : Int) (mctrl : Ptr) (after : Option MsgCtrlFields)
  | recv (u : Int) (buf : Ptr) (len : Int)
  | recvmsg2 (u : Int) (buf : Ptr) (len : Int) (mctrl : Ptr) (after : Option MsgCtrlFields)
  | clearlasterror
  deriving DecidableEq, Repr

/-- Everything an entry point can change: the state of SRT, the native
allocator, the SRT calls made so far (in program order) and the diagnostics
logged so far. -/
structure World (S : Type) where
  srt : S
  heap : Heap
  calls : List SrtCall
  log : List LogRecord
  deriving DecidableEq, Repr

/-- `sizeof(struct sockaddr)` and `sizeof(struct sockaddr_in)`. -/
def sizeofSockaddr : Nat := 16

/-- `sizeof(char)`. -/
def sizeofChar : Nat := 1

variable {S : Type}

/-! ## Entry points -/

/-- `nativeSocket`. -/
def nativeSocket (T : Translators) (L : SrtLib S) (w : World S)
    (jaf : JObject) (jtype jprotocol : Int) : Int × World S :=
  let af := T.address_family_from_java_to_native jaf
  if af ≤ 0 then
    (af, { w with log := w.log ++ [LOGE TAG "Bad value for address family"] })
  else
    let r := L.srt_socket w.srt af jtype jprotocol
    (r.1, { w with srt := r.2, calls := w.calls ++ [SrtCall.socket af jtype jprotocol] })

/-- `nativeBind`. -/
def nativeBind (T : Translators) (L : SrtLib S) (w : World S)
    (ju inetSocketAddress : JObject) : Int × World S :=
  let u := T.srt_socket_from_java_to_native ju
  let t := T.inet_socket_address_from_java_to_native inetSocketAddress w.heap
  let sa := t.1
  let r := L.srt_bind w.srt u (t.2.readSockAddr sa) sizeofSockaddr
  let heap := if sa = 0 then t.2.free sa else t.2
  (r.1, { w with srt := r.2, heap := heap,
                 calls := w.calls ++ [SrtCall.bind u sa sizeofSockaddr] })

/-- `nativeConnect`. -/
def nativeConnect (T : Translators) (L : SrtLib S) (w : World S)
    (ju inetSocketAddress : JObject) : Int × World S :=
  let u := T.srt_socket_from_java_to_native ju
  let t := T.inet_socket_address_from_java_to_native inetSocketAddress w.heap
  let sa := t.1
  let r := L.srt_connect w.srt u (t.2.readSockAddr sa) sizeofSockaddr
  let heap := if sa = 0 then t.2.free sa else t.2
  (r.1, { w with srt := r.2, heap := heap,
                 calls := w.calls ++ [SrtCall.connect u sa sizeofSockaddr] })

/-- `nativeAccept`.  The call passes `&sa`, the address of the local pointer,
to `srt_accept`; where SRT's bytes land is a matter of stack layout and is not
represented: the peer address is taken as SRT reports it.  The value of the
native-to-managed translation is not stored anywhere. -/
def nativeAccept (T : Translators) (L : SrtLib S) (w : World S)
    (ju : JObject) : JObject × World S :=
  let u := T.srt_socket_from_java_to_native ju
  let m := w.heap.malloc sizeofSockaddr (Cell.sockaddr ⟨0, 0, 0⟩)
  let sa := m.1
  let inetSocketAddress := JObject.null
  let r := L.srt_accept w.srt u
  let new_u := r.1.1
  let addrlen := r.1.2.1
  let _discarded :=
    if addrlen ≠ 0 then T.inet_socket_address_from_native_to_java r.1.2.2 addrlen
    else JObject.null
  let res := create_java_pair (T.srt_socket_from_native_to_java new_u) inetSocketAddress
  let heap := if sa = 0 then m.2.free sa else m.2
  (res, { w with srt := r.2, heap := heap, calls := w.calls ++ [SrtCall.accept u] })

/-- `nativeSetSockOpt`. -/
def nativeSetSockOpt (T : Translators) (L : SrtLib S) (w : World S)
    (ju : JObject) (level : Int) (jopt joptval : JObject) : Int × World S :=
  let u := T.srt_socket_from_java_to_native ju
  let opt := T.srt_sockopt_from_java_to_native jopt
  if opt ≤ 0 then
    (opt, { w with log := w.log ++ [LOGE TAG "Bad value for SRT option"] })
  else
    let t := T.srt_optval_from_java_to_native joptval 0 w.heap
    let optval := t.1.1
    let optlen := t.1.2
    let r := L.srt_setsockopt w.srt u level opt (t.2.readBytesCell optval) optlen
    let heap := if optval = 0 then t.2.free optval else t.2
    (r.1, { w with srt := r.2, heap := heap,
                   calls := w.calls ++ [SrtCall.setsockopt u level opt optval optlen] })

/-- `nativeSendMsg2`.  The second component of the result is the managed
message-control object as it is when the entry point returns. -/
def nativeSendMsg2 (T : Translators) (L : SrtLib S) (w : World S)
    (ju : JObject) (jbuf : List Nat) (jmsgCtrl : JObject) : (Int × JObject) × World S :=
  let u := T.srt_socket_from_java_to_native ju
  let t := T.srt_msgctrl_from_java_to_native jmsgCtrl w.heap
  let msgctrl := t.1
  let len : Int := jbuf.length
  let r := L.srt_sendmsg2 w.srt u jbuf len (t.2.readMsgCtrl msgctrl)
  let heap1 :=
    match r.1.2 with
    | some m => t.2.store msgctrl (Cell.msgctrl m)
    | none => t.2
  let heap2 := if msgctrl ≠ 0 then heap1.free msgctrl else heap1
  ((r.1.1, jmsgCtrl),
   { w with srt := r.2, heap := heap2,
            calls := w.calls ++ [SrtCall.sendmsg2 u len msgctrl (heap1.readMsgCtrl msgctrl)] })

/-- `nativeRecv`. -/
def nativeRecv (T : Translators) (L : SrtLib S) (w : World S)
    (ju : JObject) (len : Int) : Except Fault (JObject × World S) :=
  let u := T.srt_socket_from_java_to_native ju
  let m := w.heap.malloc sizeofChar (Cell.bytes (List.replicate sizeofChar 0))
  let buf := m.1
  let r := L.srt_recv w.srt u len
  let res := r.1.1
  match m.2.writeBytes buf 0 r.1.2 with
  | .error e => .error e
  | .ok heap1 =>
    let calls := w.calls ++ [SrtCall.recv u buf len]
    if 0 < res then
      match heap1.readBytes buf res.toNat with
      | .error e => .error e
      | .ok bytes =>
        let heap2 := if buf ≠ 0 then heap1.free buf else heap1
        .ok (JObject.byteArray bytes, { w with srt := r.2, heap := heap2, calls := calls })
    else
      let heap2 := if buf ≠ 0 then heap1.free buf else heap1
      .ok (JObject.null, { w with srt := r.2, heap := heap2, calls := calls })

/-- `nativeRecvMsg2`.  The second component of the result is the managed
message-control object as it is when the entry point returns. -/
def nativeRecvMsg2 (T : Translators) (L : SrtLib S) (w : World S)
    (ju : JObject) (len : Int) (jmsgCtrl : JObject) :
    Except Fault ((JObject × JObject) × World S) :=
  let u := T.srt_socket_from_java_to_native ju
  let t := T.srt_msgctrl_from_java_to_native jmsgCtrl w.heap
  let msgctrl := t.1
  let m := t.2.malloc sizeofChar (Cell.bytes (List.replicate sizeofChar 0))
  let buf := m.1
  let r := L.srt_recvmsg2 w.srt u len (m.2.readMsgCtrl msgctrl)
  let res := r.1.1
  let heap0 :=
    match r.1.2.2 with
    | some c => m.2.store msgctrl (Cell.msgctrl c)
    | none => m.2
  match heap0.writeBytes buf 0 r.1.2.1 with
  | .error e => .error e
  | .ok heap1 =>
    let calls := w.calls ++ [SrtCall.recvmsg2 u buf len msgctrl (heap1.readMsgCtrl msgctrl)]
    if 0 < res then
      match heap1.readBytes buf res.toNat with
      | .error e => .error e
      | .ok bytes =>
        let heap2 := if buf ≠ 0 then heap1.free buf else heap1
        let heap3 := if msgctrl ≠ 0 then heap2.free msgctrl else heap2
        .ok ((JObject.byteArray bytes, jmsgCtrl),
             { w with srt := r.2, heap := heap3, calls := calls })
    else
      let heap2 := if buf ≠ 0 then heap1.free buf else heap1
      let heap3 := if msgctrl ≠ 0 then heap2.free msgctrl else heap2
      .ok ((JObject.null, jmsgCtrl), { w with srt := r.2, heap := heap3, calls := calls })

/-- `nativeClearLastError`. -/
def nativeClearLastError (L : SrtLib S) (w : World S) : World S :=
  { w with srt := L.srt_clearlasterror w.srt, calls := w.calls ++ [SrtCall.clearlasterror] }

/-! ## Concrete collaborators, for evaluating the entry points -/

/-- Little-endian bytes of a 32-bit integer. -/
def le32 (v : Int) : List Nat :=
  let m := (v % 4294967296).toNat
  [m % 256, m / 256 % 256, m / 65536 % 256, m / 16777216 % 256]

/-- A concrete set of translators: unknown enumeration values give `-1`,
unsupported values and unresolvable addresses give `nullptr`, everything else is
copied into a fresh allocation. -/
def sampleTranslators : Translators where
  address_family_from_java_to_native := fun j =>
    match j with
    | .enumValue n => if n = "INET" then 2 else if n = "INET6" then 10 else -1
    | _ => -1
  srt_sockopt_from_java_to_native := fun j =>
    match j with
    | .enumValue n => if n = "PAYLOADSIZE" then 17 else if n = "STREAMID" then 46 else -1
    | _ => -1
  srt_socket_from_java_to_native := fun j =>
    match j with
    | .srtSocket h => h
    | _ => SRT_INVALID_SOCK
  srt_socket_from_native_to_java := fun h => JObject.srtSocket h
  inet_socket_address_from_java_to_native := fun j h =>
    match j with
    | .inetSocketAddress a p => h.malloc sizeofSockaddr (Cell.sockaddr ⟨2, a, p⟩)
    | _ => (0, h)
  inet_socket_address_from_native_to_java := fun sa _ => JObject.inetSocketAddress sa.addr sa.port
  srt_optval_from_java_to_native := fun j optlen h =>
    match j with
    | .boxedInt v => let r := h.malloc 4 (Cell.bytes (le32 v)); ((r.1, 4), r.2)
    | .boxedString s =>
      let bs := s.toList.map Char.toNat
      let r := h.malloc bs.length (Cell.bytes bs)
      ((r.1, bs.length), r.2)
    | _ => ((0, optlen), h)
  srt_msgctrl_from_java_to_native := fun j h =>
    match j with
    | .msgCtrl m => h.malloc 48 (Cell.msgctrl m)
    | _ => (0, h)

/-- A small stand-in for SRT whose state is its last error code.  Socket `1` is
a listener with one pending peer and three pending bytes; any other handle is
not a socket.  Sending stamps the message-control record with a sequence and a
message number. -/
def sampleSrt : SrtLib Int where
  srt_socket := fun s _ _ _ => (1, s)
  srt_bind := fun s _ name _ =>
    match name with
    | none => (-1, 5004)
    | some _ => (0, s)
  srt_connect := fun s _ name _ =>
    match name with
    | none => (-1, 5004)
    | some _ => (0, s)
  srt_accept := fun s u =>
    if u = 1 then ((7, 16, ⟨2, 2130706433, 40000⟩), s)
    else ((SRT_INVALID_SOCK, 0, ⟨0, 0, 0⟩), 5004)
  srt_setsockopt := fun s _ _ _ optval _ =>
    match optval with
    | none => (-1, 5004)
    | some _ => (0, s)
  srt_sendmsg2 := fun s _ _ len m =>
    ((len, m.map (fun c => { c with pktseq := 1000, msgno := 1 })), s)
  srt_recv := fun s u len =>
    if u = 1 then
      let d := [1, 2, 3].take len.toNat
      (((d.length : Int), d), s)
    else ((-1, []), 5004)
  srt_recvmsg2 := fun s u len m =>
    if u = 1 then
      let d := [1, 2, 3].take len.toNat
      (((d.length : Int), d, m.map (fun c => { c with pktseq := 1000, msgno := 1 })), s)
    else ((-1, [], m), 5004)
  srt_clearlasterror := fun _ => 0
  srt_getlasterror := fun s => s

/-- A world in which SRT's last error is `2001` and nothing is allocated. -/
def sampleWorld : World Int :=
  { srt := 2001, heap := { live := [], next := 0, room := 1024, frees := [] },
    calls := [], log := [] }

/-- Sample values for the class-name macros. -/
def sampleClassNames : ClassNames :=
  { SRT_CLASS := "srtdroid/Srt",
    SRTSOCKET_CLASS := "srtdroid/models/Socket",
    ERROR_CLASS := "srtdroid/models/Error",
    ERRORTYPE_CLASS := "srtdroid/enums/ErrorType",
    INETSOCKETADDRESS_CLASS := "java/net/InetSocketAddress",
    SOCKSTATUS_CLASS := "srtdroid/enums/SockStatus",
    PAIR_CLASS := "android/util/Pair",
    SOCKOPT_CLASS := "srtdroid/enums/SockOpt",
    MSGCTRL_CLASS := "srtdroid/models/MsgCtrl" }

/-- A runtime in which every class is found and every registration succeeds. -/
def sampleVM : JavaVM :=
  { GetEnvStatus := 0,
    env := { FindClass := fun _ => some 1, RegisterNatives := fun _ _ _ => 0 } }

/-! ## Log adapter: properties -/

/-- C7: for every level the log adapter emits exactly one record with tag
`libsrt` and payload `file@line:area message`; the record has priority FATAL
for CRIT, ERROR for ERR, WARN for WARNING, INFO for NOTICE, DEBUG for DEBUG; for
every other level it has priority UNKNOWN and is preceded by one diagnostic
record, under the glue tag, naming the level. -/
theorem srt_logger_total (L : SrtLogLevels) (hL : L.distinct) (level : Int)
    (file : String) (line : Int) (area message : String) :
    ((srt_logger L level file line area message).filter
        (fun r => r.tag = "libsrt")).length = 1 ∧
    (level = L.LOG_CRIT → srt_logger L level file line area message =
      [⟨ANDROID_LOG_FATAL, "libsrt",
        file ++ "@" ++ toString line ++ ":" ++ area ++ " " ++ message⟩]) ∧
    (level = L.LOG_ERR → srt_logger L level file line area message =
      [⟨ANDROID_LOG_ERROR, "libsrt",
        file ++ "@" ++ toString line ++ ":" ++ area ++ " " ++ message⟩]) ∧
    (level = L.LOG_WARNING → srt_logger L level file line area message =
      [⟨ANDROID_LOG_WARN, "libsrt",
        file ++ "@" ++ toString line ++ ":" ++ area ++ " " ++ message⟩]) ∧
    (level = L.LOG_NOTICE → srt_logger L level file line area message =
      [⟨ANDROID_LOG_INFO, "libsrt",
        file ++ "@" ++ toString line ++ ":" ++ area ++ " " ++ message⟩]) ∧
    (level = L.LOG_DEBUG → srt_logger L level file line area message =
      [⟨ANDROID_LOG_DEBUG, "libsrt",
        file ++ "@" ++ toString line ++ ":" ++ area ++ " " ++ message⟩]) ∧
    (level ≠ L.LOG_CRIT → level ≠ L.LOG_ERR → level ≠ L.LOG_WARNING →
      level ≠ L.LOG_NOTICE → level ≠ L.LOG_DEBUG →
      srt_logger L level file line area message =
        [LOGE TAG ("Unknown log level " ++ toString level),
         ⟨ANDROID_LOG_UNKNOWN, "libsrt",
          file ++ "@" ++ toString line ++ ":" ++ area ++ " " ++ message⟩]) := by
  obtain ⟨h12, h13, h14, h15, h23, h24, h25, h34, h35, h45⟩ := hL
  have hTag : ¬ (TAG = "libsrt") := by decide
  refine ⟨?_, ?_, ?_, ?_, ?_, ?_, ?_⟩
  · unfold srt_logger srt_logger_switch
    split_ifs <;> simp [LOGE, hTag]
  · intro h; subst h; simp [srt_logger, srt_logger_switch, logPayload]
  · intro h; subst h; simp [srt_logger, srt_logger_switch, logPayload, Ne.symm h12]
  · intro h; subst h
    simp [srt_logger, srt_logger_switch, logPayload, Ne.symm h13, Ne.symm h23]
  · intro h; subst h
    simp [srt_logger, srt_logger_switch, logPayload, Ne.symm h14, Ne.symm h24, Ne.symm h34]
  · intro h; subst h
    simp [srt_logger, srt_logger_switch, logPayload, Ne.symm h15, Ne.symm h25, Ne.symm h35,
      Ne.symm h45]
  · intro h1 h2 h3 h4 h5
    simp [srt_logger, srt_logger_switch, logPayload, h1, h2, h3, h4, h5]

/-- Witness of C7 at the `syslog.h` levels: a warning from `core.cpp`, line 42. -/
theorem srt_logger_total_witness :
    syslogLevels.distinct ∧
    srt_logger syslogLevels 4 "core.cpp" 42 "cc" "late packet" =
      [⟨ANDROID_LOG_WARN, "libsrt",
        "core.cpp" ++ "@" ++ toString (42 : Int) ++ ":" ++ "cc" ++ " " ++ "late packet"⟩] :=
  ⟨by decide,
   (srt_logger_total syslogLevels (by decide) 4 "core.cpp" 42 "cc" "late packet").2.2.2.1 rfl⟩

/-! ## Registration: properties -/

theorem registerNativeForClassName_values (env : JNIEnv) (className : String)
    (methods : List JNINativeMethod) :
    (registerNativeForClassName env className methods methods.length).1 = JNI_TRUE ∧
      classRegisters env className methods ∨
    (registerNativeForClassName env className methods methods.length).1 = JNI_FALSE ∧
      ¬ classRegisters env className methods := by
  unfold registerNativeForClassName classRegisters
  cases hF : env.FindClass className with
  | none => right; simp
  | some clazz =>
    by_cases hR : env.RegisterNatives clazz methods methods.length < 0
    · right; simp [hR]
    · left; simp [hR]; omega

theorem registerNativeForClassName_true_iff (env : JNIEnv) (className : String)
    (methods : List JNINativeMethod) :
    (registerNativeForClassName env className methods methods.length).1 = JNI_TRUE ↔
      classRegisters env className methods := by
  rcases registerNativeForClassName_values env className methods with ⟨h, hc⟩ | ⟨h, hc⟩
  · exact ⟨fun _ => hc, fun _ => h⟩
  · constructor
    · intro h1
      rw [h] at h1
      exact absurd h1 (by decide)
    · intro h1
      exact absurd h1 hc

/-- C8: when `GetEnv` succeeds, `JNI_OnLoad` returns the positive constant
`JNI_VERSION_1_6` exactly when each of the four classes (runtime control,
socket, error container, error kind) is found and its table registered, and a
negative status otherwise; the per-class helper returns `JNI_FALSE`, never
`JNI_TRUE`, for a class whose lookup or registration fails. -/
theorem JNI_OnLoad_status (C : ClassNames) (vm : JavaVM) (hEnv : vm.GetEnvStatus = JNI_OK) :
    ((JNI_OnLoad C vm).1 = JNI_VERSION_1_6 ↔
      (classRegisters vm.env C.SRT_CLASS srtMethods ∧
       classRegisters vm.env C.SRTSOCKET_CLASS (socketMethods C) ∧
       classRegisters vm.env C.ERROR_CLASS (errorMethods C) ∧
       classRegisters vm.env C.ERRORTYPE_CLASS errorTypeMethods)) ∧
    (¬ (classRegisters vm.env C.SRT_CLASS srtMethods ∧
        classRegisters vm.env C.SRTSOCKET_CLASS (socketMethods C) ∧
        classRegisters vm.env C.ERROR_CLASS (errorMethods C) ∧
        classRegisters vm.env C.ERRORTYPE_CLASS errorTypeMethods) →
      (JNI_OnLoad C vm).1 < 0) ∧
    0 < JNI_VERSION_1_6 ∧
    (∀ (className : String) (methods : List JNINativeMethod),
      ¬ classRegisters vm.env className methods →
      (registerNativeForClassName vm.env className methods methods.length).1 = JNI_FALSE ∧
      (registerNativeForClassName vm.env className methods methods.length).1 ≠ JNI_TRUE) := by
  have key : (JNI_OnLoad C vm).1 = JNI_VERSION_1_6 ∧
      (classRegisters vm.env C.SRT_CLASS srtMethods ∧
       classRegisters vm.env C.SRTSOCKET_CLASS (socketMethods C) ∧
       classRegisters vm.env C.ERROR_CLASS (errorMethods C) ∧
       classRegisters vm.env C.ERRORTYPE_CLASS errorTypeMethods) ∨
      (JNI_OnLoad C vm).1 = -1 ∧
      ¬ (classRegisters vm.env C.SRT_CLASS srtMethods ∧
       classRegisters vm.env C.SRTSOCKET_CLASS (socketMethods C) ∧
       classRegisters vm.env C.ERROR_CLASS (errorMethods C) ∧
       classRegisters vm.env C.ERRORTYPE_CLASS errorTypeMethods) := by
    unfold JNI_OnLoad
    simp only [hEnv, ne_eq, not_true_eq_false, if_false]
    rcases registerNativeForClassName_values vm.env C.SRT_CLASS srtMethods with
      ⟨h1, c1⟩ | ⟨h1, c1⟩
    · rcases registerNativeForClassName_values vm.env C.SRTSOCKET_CLASS (socketMethods C) with
        ⟨h2, c2⟩ | ⟨h2, c2⟩
      · rcases registerNativeForClassName_values vm.env C.ERROR_CLASS (errorMethods C) with
          ⟨h3, c3⟩ | ⟨h3, c3⟩
        · rcases registerNativeForClassName_values vm.env C.ERRORTYPE_CLASS errorTypeMethods with
            ⟨h4, c4⟩ | ⟨h4, c4⟩
          · left; simp [h1, h2, h3, h4, c1, c2, c3, c4]
          · right; simp [h1, h2, h3, h4, c4, JNI_FALSE, JNI_TRUE]
        · right; simp [h1, h2, h3, c3, JNI_FALSE, JNI_TRUE]
      · right; simp [h1, h2, c2, JNI_FALSE, JNI_TRUE]
    · right; simp [h1, c1, JNI_FALSE, JNI_TRUE]
  refine ⟨?_, ?_, by decide, ?_⟩
  · rcases key with ⟨h, hc⟩ | ⟨h, hc⟩
    · exact ⟨fun _ => hc, fun _ => h⟩
    · constructor
      · intro h1
        rw [h] at h1
        exact absurd h1 (by decide)
      · intro h1
        exact absurd h1 hc
  · intro hn
    rcases key with ⟨_, hc⟩ | ⟨h, _⟩
    · exact absurd hc hn
    · rw [h]; decide
  · intro className methods hn
    rcases registerNativeForClassName_values vm.env className methods with ⟨_, hc⟩ | ⟨h, _⟩
    · exact absurd hc hn
    · exact ⟨h, by rw [h]; decide⟩

/-- Witness of C8: a runtime where every class is found and registers. -/
theorem JNI_OnLoad_status_witness :
    sampleVM.GetEnvStatus = JNI_OK ∧ (JNI_OnLoad sampleClassNames sampleVM).1 = 65542 :=
  ⟨rfl, (JNI_OnLoad_status sampleClassNames sampleVM rfl).1.mpr
    ⟨⟨1, rfl, by decide⟩, ⟨1, rfl, by decide⟩, ⟨1, rfl, by decide⟩, ⟨1, rfl, by decide⟩⟩⟩

/-! ## Native memory: basic facts -/

theorem Heap.read_null (h : Heap) : h.read 0 = none := by
  simp [Heap.read]

theorem Heap.readSockAddr_null (h : Heap) : h.readSockAddr 0 = none := by
  simp [Heap.readSockAddr, Heap.read]

theorem Heap.readBytesCell_null (h : Heap) : h.readBytesCell 0 = none := by
  simp [Heap.readBytesCell, Heap.read]

theorem Heap.read_store (h : Heap) (p : Ptr) (c c0 : Cell) (h0 : h.read p = some c0) :
    (h.store p c).read p = some c := by
  unfold Heap.read at h0 ⊢
  by_cases hp : p = 0
  · simp [hp] at h0
  · simp only [hp, if_false, Heap.store] at h0 ⊢
    generalize h.live = bs at h0
    induction bs with
    | nil => simp at h0
    | cons b bs ih =>
      by_cases hb : b.addr = p
      · simp [List.find?, hb]
      · simp only [List.map_cons, hb, if_false, List.find?, decide_False] at h0 ⊢
        exact ih h0

theorem Heap.capacity_store_bytes (h : Heap) (p : Ptr) (bs bs0 : List Nat)
    (h0 : h.read p = some (Cell.bytes bs0)) :
    (h.store p (Cell.bytes bs)).capacity p = bs.length := by
  unfold Heap.capacity
  rw [Heap.read_store h p _ _ h0]

/-- A store that succeeds is inside the buffer and keeps its capacity. -/
theorem Heap.writeByte_ok (h h1 : Heap) (p : Ptr) (i v : Nat)
    (hw : h.writeByte p i v = Except.ok h1) :
    i < h.capacity p ∧ h1.capacity p = h.capacity p := by
  unfold Heap.writeByte at hw
  split at hw
  · rename_i bs hr
    split_ifs at hw with hi
    · cases hw
      refine ⟨?_, ?_⟩
      · simp [Heap.capacity, hr, hi]
      · rw [Heap.capacity_store_bytes h p _ bs hr]
        simp [Heap.capacity, hr]
  · cases hw

/-- Stores that all succeed fit in the buffer. -/
theorem Heap.writeBytes_ok (d : List Nat) (h h1 : Heap) (p : Ptr) (i : Nat)
    (hw : h.writeBytes p i d = Except.ok h1) (hd : d ≠ []) :
    i + d.length ≤ h.capacity p := by
  induction d generalizing h i with
  | nil => exact absurd rfl hd
  | cons v vs ih =>
    unfold Heap.writeBytes at hw
    split at hw
    · rename_i h2 hw2
      obtain ⟨hi, hc⟩ := Heap.writeByte_ok h h2 p i v hw2
      by_cases hvs : vs = []
      · subst hvs
        simp
        omega
      · have := ih h2 (i + 1) hw hvs
        simp only [List.length_cons]
        omega
    · cases hw

theorem Heap.capacity_malloc_char (h : Heap) :
    (h.malloc sizeofChar (Cell.bytes (List.replicate sizeofChar 0))).2.capacity
      (h.malloc sizeofChar (Cell.bytes (List.replicate sizeofChar 0))).1 ≤ 1 := by
  unfold Heap.malloc
  split_ifs
  · simp [Heap.capacity, Heap.read]
  · simp [Heap.capacity, Heap.read, List.find?, sizeofChar]

/-! ## Entry points: translator failures -/

/-- C1: when the address-family translator (for `nativeSocket`) or the
option-selector translator (for `nativeSetSockOpt`) yields a failure value, that
is a value that is not positive, the entry point returns exactly that value,
makes no SRT call, and leaves the state of SRT, hence its last error, as it
was. -/
theorem enum_translator_failure_aborts (T : Translators) (L : SrtLib S) (w : World S) :
    (∀ (jaf : JObject) (jtype jprotocol : Int),
      T.address_family_from_java_to_native jaf ≤ 0 →
      (nativeSocket T L w jaf jtype jprotocol).1 = T.address_family_from_java_to_native jaf ∧
      (nativeSocket T L w jaf jtype jprotocol).2.calls = w.calls ∧
      (nativeSocket T L w jaf jtype jprotocol).2.srt = w.srt ∧
      L.srt_getlasterror (nativeSocket T L w jaf jtype jprotocol).2.srt =
        L.srt_getlasterror w.srt) ∧
    (∀ (ju : JObject) (level : Int) (jopt joptval : JObject),
      T.srt_sockopt_from_java_to_native jopt ≤ 0 →
      (nativeSetSockOpt T L w ju level jopt joptval).1 =
        T.srt_sockopt_from_java_to_native jopt ∧
      (nativeSetSockOpt T L w ju level jopt joptval).2.calls = w.calls ∧
      (nativeSetSockOpt T L w ju level jopt joptval).2.srt = w.srt ∧
      L.srt_getlasterror (nativeSetSockOpt T L w ju level jopt joptval).2.srt =
        L.srt_getlasterror w.srt) := by
  constructor
  · intro jaf jtype jprotocol h
    simp [nativeSocket, h]
  · intro ju level jopt joptval h
    simp [nativeSetSockOpt, h]

/-- Witness of C1: an unknown family and an unknown option, with SRT's last
error at `2001` before and after. -/
theorem enum_translator_failure_aborts_witness :
    sampleTranslators.address_family_from_java_to_native (JObject.enumValue "UNIX") ≤ 0 ∧
    (nativeSocket sampleTranslators sampleSrt sampleWorld (JObject.enumValue "UNIX") 1 0).1 =
      sampleTranslators.address_family_from_java_to_native (JObject.enumValue "UNIX") ∧
    sampleTranslators.srt_sockopt_from_java_to_native (JObject.enumValue "UNKNOWN_ENUM") ≤ 0 ∧
    (nativeSetSockOpt sampleTranslators sampleSrt sampleWorld (JObject.srtSocket 1) 0
      (JObject.enumValue "UNKNOWN_ENUM") (JObject.boxedInt 0)).2.calls = sampleWorld.calls :=
  ⟨by decide,
   ((enum_translator_failure_aborts sampleTranslators sampleSrt sampleWorld).1
      (JObject.enumValue "UNIX") 1 0 (by decide)).1,
   by decide,
   ((enum_translator_failure_aborts sampleTranslators sampleSrt sampleWorld).2
      (JObject.srtSocket 1) 0 (JObject.enumValue "UNKNOWN_ENUM") (JObject.boxedInt 0)
      (by decide)).2.1⟩

/-- C2 as stated fails: with an address that does not resolve (the translator
hands back `nullptr`), `nativeBind` still calls `srt_bind`, with the null
address, and what it returns is the status of that call. -/
theorem nativeBind_null_address_calls_srt :
    (sampleTranslators.inet_socket_address_from_java_to_native JObject.null
      sampleWorld.heap).1 = 0 ∧
    SrtCall.bind 1 0 16 ∈
      (nativeBind sampleTranslators sampleSrt sampleWorld (JObject.srtSocket 1)
        JObject.null).2.calls ∧
    (nativeBind sampleTranslators sampleSrt sampleWorld (JObject.srtSocket 1)
        JObject.null).2.srt ≠ sampleWorld.srt := by
  decide

/-- C2, amended: when the socket-address translator hands back `nullptr`,
`nativeBind` and `nativeConnect` call `srt_bind` / `srt_connect` exactly once,
with a null address and the fixed length, and return the status of that call;
when the option selector is valid and the option-value translator hands back
`nullptr`, `nativeSetSockOpt` calls `srt_setsockopt` exactly once, with a null
value and the length the translator left, and returns the status of that call. -/
theorem pointer_translator_failure_forwards (T : Translators) (L : SrtLib S) (w : World S) :
    (∀ (ju addr : JObject),
      (T.inet_socket_address_from_java_to_native addr w.heap).1 = 0 →
      (nativeBind T L w ju addr).1 =
        (L.srt_bind w.srt (T.srt_socket_from_java_to_native ju) none sizeofSockaddr).1 ∧
      (nativeBind T L w ju addr).2.calls =
        w.calls ++ [SrtCall.bind (T.srt_socket_from_java_to_native ju) 0 sizeofSockaddr] ∧
      (nativeBind T L w ju addr).2.srt =
        (L.srt_bind w.srt (T.srt_socket_from_java_to_native ju) none sizeofSockaddr).2) ∧
    (∀ (ju addr : JObject),
      (T.inet_socket_address_from_java_to_native addr w.heap).1 = 0 →
      (nativeConnect T L w ju addr).1 =
        (L.srt_connect w.srt (T.srt_socket_from_java_to_native ju) none sizeofSockaddr).1 ∧
      (nativeConnect T L w ju addr).2.calls =
        w.calls ++ [SrtCall.connect (T.srt_socket_from_java_to_native ju) 0 sizeofSockaddr] ∧
      (nativeConnect T L w ju addr).2.srt =
        (L.srt_connect w.srt (T.srt_socket_from_java_to_native ju) none sizeofSockaddr).2) ∧
    (∀ (ju : JObject) (level : Int) (jopt joptval : JObject),
      0 < T.srt_sockopt_from_java_to_native jopt →
      (T.srt_optval_from_java_to_native joptval 0 w.heap).1.1 = 0 →
      (nativeSetSockOpt T L w ju level jopt joptval).1 =
        (L.srt_setsockopt w.srt (T.srt_socket_from_java_to_native ju) level
          (T.srt_sockopt_from_java_to_native jopt) none
          (T.srt_optval_from_java_to_native joptval 0 w.heap).1.2).1 ∧
      (nativeSetSockOpt T L w ju level jopt joptval).2.calls =
        w.calls ++ [SrtCall.setsockopt (T.srt_socket_from_java_to_native ju) level
          (T.srt_sockopt_from_java_to_native jopt) 0
          (T.srt_optval_from_java_to_native joptval 0 w.heap).1.2] ∧
      (nativeSetSockOpt T L w ju level jopt joptval).2.srt =
        (L.srt_setsockopt w.srt (T.srt_socket_from_java_to_native ju) level
          (T.srt_sockopt_from_java_to_native jopt) none
          (T.srt_optval_from_java_to_native joptval 0 w.heap).1.2).2) := by
  refine ⟨?_, ?_, ?_⟩
  · intro ju addr h
    simp [nativeBind, h, Heap.readSockAddr_null]
  · intro ju addr h
    simp [nativeConnect, h, Heap.readSockAddr_null]
  · intro ju level jopt joptval hopt h
    have hopt2 : ¬ (T.srt_sockopt_from_java_to_native jopt ≤ 0) := by omega
    simp [nativeSetSockOpt, h, hopt2, Heap.readBytesCell_null]

/-- Witness of the amended C2: an address that does not resolve, and an option
value of an unsupported type under a valid selector. -/
theorem pointer_translator_failure_forwards_witness :
    (sampleTranslators.inet_socket_address_from_java_to_native JObject.null
      sampleWorld.heap).1 = 0 ∧
    (nativeConnect sampleTranslators sampleSrt sampleWorld (JObject.srtSocket 1)
      JObject.null).2.calls = sampleWorld.calls ++ [SrtCall.connect 1 0 16] ∧
    0 < sampleTranslators.srt_sockopt_from_java_to_native (JObject.enumValue "PAYLOADSIZE") ∧
    (sampleTranslators.srt_optval_from_java_to_native JObject.null 0 sampleWorld.heap).1.1 = 0 ∧
    (nativeSetSockOpt sampleTranslators sampleSrt sampleWorld (JObject.srtSocket 1) 0
      (JObject.enumValue "PAYLOADSIZE") JObject.null).2.calls =
        sampleWorld.calls ++ [SrtCall.setsockopt 1 0 17 0 0] :=
  ⟨by decide,
   ((pointer_translator_failure_forwards sampleTranslators sampleSrt sampleWorld).2.1
      (JObject.srtSocket 1) JObject.null (by decide)).2.1,
   by decide, by decide,
   ((pointer_translator_failure_forwards sampleTranslators sampleSrt sampleWorld).2.2
      (JObject.srtSocket 1) 0 (JObject.enumValue "PAYLOADSIZE") JObject.null
      (by decide) (by decide)).2.1⟩

/-! ## Accept -/

/-- C3 at a concrete call: SRT accepts a peer on listener `1`, reports an address
length of `16` and the peer address `127.0.0.1:40000`, which the translator
turns into a non-null managed address; the pair `nativeAccept` returns wraps
the new handle `7`, and its second component is `null`. -/
theorem nativeAccept_drops_peer_address :
    (sampleSrt.srt_accept sampleWorld.srt 1).1.2.1 = 16 ∧
    sampleTranslators.inet_socket_address_from_native_to_java
      (sampleSrt.srt_accept sampleWorld.srt 1).1.2.2 16 =
        JObject.inetSocketAddress 2130706433 40000 ∧
    (nativeAccept sampleTranslators sampleSrt sampleWorld (JObject.srtSocket 1)).1 =
      JObject.pair (JObject.srtSocket 7) JObject.null := by
  decide

/-- C4: when `srt_accept` fails, returning `SRT_INVALID_SOCK` and leaving the
address length at zero, `nativeAccept` returns the pair of the wrapper of
`SRT_INVALID_SOCK` and `null`; its only SRT call is `srt_accept`, so it makes
no call that clears the last error, and SRT is left in the state `srt_accept`
left it in. -/
theorem nativeAccept_failure (T : Translators) (L : SrtLib S) (w : World S) (ju : JObject)
    (hu : (L.srt_accept w.srt (T.srt_socket_from_java_to_native ju)).1.1 = SRT_INVALID_SOCK)
    (_hlen : (L.srt_accept w.srt (T.srt_socket_from_java_to_native ju)).1.2.1 = 0) :
    (nativeAccept T L w ju).1 =
      JObject.pair (T.srt_socket_from_native_to_java SRT_INVALID_SOCK) JObject.null ∧
    (nativeAccept T L w ju).1.first = T.srt_socket_from_native_to_java SRT_INVALID_SOCK ∧
    (nativeAccept T L w ju).1.second = JObject.null ∧
    (nativeAccept T L w ju).2.calls =
      w.calls ++ [SrtCall.accept (T.srt_socket_from_java_to_native ju)] ∧
    (SrtCall.clearlasterror ∈ (nativeAccept T L w ju).2.calls ↔
      SrtCall.clearlasterror ∈ w.calls) ∧
    (nativeAccept T L w ju).2.srt =
      (L.srt_accept w.srt (T.srt_socket_from_java_to_native ju)).2 := by
  simp [nativeAccept, create_java_pair, hu, JObject.first, JObject.second]

/-- Witness of C4: accept on handle `9`, which is not a listener. -/
theorem nativeAccept_failure_witness :
    (sampleSrt.srt_accept sampleWorld.srt
      (sampleTranslators.srt_socket_from_java_to_native (JObject.srtSocket 9))).1.1 =
        SRT_INVALID_SOCK ∧
    (sampleSrt.srt_accept sampleWorld.srt
      (sampleTranslators.srt_socket_from_java_to_native (JObject.srtSocket 9))).1.2.1 = 0 ∧
    (nativeAccept sampleTranslators sampleSrt sampleWorld (JObject.srtSocket 9)).1 =
      JObject.pair (JObject.srtSocket (-1)) JObject.null :=
  ⟨by decide, by decide,
   (nativeAccept_failure sampleTranslators sampleSrt sampleWorld (JObject.srtSocket 9)
      (by decide) (by decide)).1⟩

/-- Whatever SRT reports, the address component of the pair is `null`. -/
theorem nativeAccept_second_null (T : Translators) (L : SrtLib S) (w : World S) (ju : JObject) :
    (nativeAccept T L w ju).1.second = JObject.null := by
  simp [nativeAccept, create_java_pair, JObject.second]

/-! ## Receive -/

/-- A call of `nativeRecv` that returns is one in which SRT stored at most one
byte, whatever `len` was. -/
theorem nativeRecv_ok_at_most_one_byte (T : Translators) (L : SrtLib S) (w : World S)
    (ju : JObject) (len : Int) (r : JObject × World S)
    (h : nativeRecv T L w ju len = Except.ok r) :
    (L.srt_recv w.srt (T.srt_socket_from_java_to_native ju) len).1.2.length ≤ 1 := by
  unfold nativeRecv at h
  simp only at h
  split at h
  · cases h
  · rename_i heap1 hw
    by_cases hd : (L.srt_recv w.srt (T.srt_socket_from_java_to_native ju) len).1.2 = []
    · simp [hd]
    · have h1 := Heap.writeBytes_ok _ _ _ _ _ hw hd
      have h2 := Heap.capacity_malloc_char w.heap
      omega

/-- A call of `nativeRecv` that returns yields `null` exactly when SRT's result
is not positive. -/
theorem nativeRecv_null_iff (T : Translators) (L : SrtLib S) (w : World S)
    (ju : JObject) (len : Int) (r : JObject × World S)
    (h : nativeRecv T L w ju len = Except.ok r) :
    r.1 = JObject.null ↔
      (L.srt_recv w.srt (T.srt_socket_from_java_to_native ju) len).1.1 ≤ 0 := by
  unfold nativeRecv at h
  simp only at h
  split at h
  · cases h
  · split_ifs at h with hres <;> (try split at h) <;> cases h <;> simp <;> omega

/-- C5 at a concrete call: three bytes `[1, 2, 3]` are pending on socket `1` and
`recv(3)` is asked for; SRT reports `3` and stores three bytes, the second of
which falls outside the one-byte buffer `nativeRecv` allocated: the call ends
in an out-of-bounds store at index `1`, not in a three-byte array. -/
theorem nativeRecv_three_bytes_overruns :
    (sampleSrt.srt_recv sampleWorld.srt 1 3).1 = (3, [1, 2, 3]) ∧
    nativeRecv sampleTranslators sampleSrt sampleWorld (JObject.srtSocket 1) 3 =
      Except.error (Fault.outOfBounds 1 1) := by
  decide

/-- C10 at concrete calls: the buffer `nativeRecv` and `nativeRecvMsg2` hand to
SRT has capacity `sizeof(char)`, which is one byte, whatever `len` is; with
`len = 2` (resp. `3`) SRT is told it may store two (resp. three) bytes, and the
store at index `1` is out of bounds. -/
theorem recv_buffer_has_one_byte :
    sizeofChar = 1 ∧
    (sampleWorld.heap.malloc sizeofChar (Cell.bytes (List.replicate sizeofChar 0))).2.capacity
      (sampleWorld.heap.malloc sizeofChar (Cell.bytes (List.replicate sizeofChar 0))).1 = 1 ∧
    nativeRecv sampleTranslators sampleSrt sampleWorld (JObject.srtSocket 1) 2 =
      Except.error (Fault.outOfBounds 1 1) ∧
    nativeRecvMsg2 sampleTranslators sampleSrt sampleWorld (JObject.srtSocket 1) 3
      (JObject.msgCtrl ⟨0, -1, false, 0, 0⟩) = Except.error (Fault.outOfBounds 2 1) := by
  decide

/-! ## Message control -/

/-- C6 as stated fails: SRT stamps the native record with sequence number
`1000` and message number `1`; when `nativeSendMsg2` returns, the managed
object still has sequence number `0` and message number `0`. -/
theorem nativeSendMsg2_does_not_propagate :
    (nativeSendMsg2 sampleTranslators sampleSrt sampleWorld (JObject.srtSocket 1) [1, 2, 3]
      (JObject.msgCtrl ⟨0, -1, false, 0, 0⟩)).2.calls =
        [SrtCall.sendmsg2 1 3 1 (some ⟨0, -1, false, 1000, 1⟩)] ∧
    (nativeSendMsg2 sampleTranslators sampleSrt sampleWorld (JObject.srtSocket 1) [1, 2, 3]
      (JObject.msgCtrl ⟨0, -1, false, 0, 0⟩)).1.2 = JObject.msgCtrl ⟨0, -1, false, 0, 0⟩ ∧
    JObject.msgCtrl ⟨0, -1, false, 0, 0⟩ ≠ JObject.msgCtrl ⟨0, -1, false, 1000, 1⟩ := by
  decide

theorem Heap.readMsgCtrl_eq_some (h : Heap) (p : Ptr) (m : MsgCtrlFields) :
    h.readMsgCtrl p = some m ↔ h.read p = some (Cell.msgctrl m) := by
  unfold Heap.readMsgCtrl
  cases hr : h.read p with
  | none => simp
  | some c => cases c <;> simp

theorem Heap.read_store_ne (h : Heap) (p q : Ptr) (c : Cell) (hpq : p ≠ q) :
    (h.store q c).read p = h.read p := by
  unfold Heap.read
  by_cases hp : p = 0
  · simp [hp]
  · simp only [hp, if_false, Heap.store]
    congr 1
    generalize h.live = bs
    induction bs with
    | nil => rfl
    | cons b bs ih =>
      simp only [List.map_cons, List.find?_cons]
      by_cases hb : b.addr = q
      · have hqp : ¬ q = p := Ne.symm hpq
        have hbp : ¬ b.addr = p := fun e => hpq (e.symm.trans hb)
        rw [if_pos hb]
        simp only [hqp, hbp, decide_False]
        exact ih
      · rw [if_neg hb]
        by_cases hbp : b.addr = p
        · simp only [hbp, decide_True]
        · simp only [hbp, decide_False]
          exact ih

theorem Heap.freeCount_store (h : Heap) (p q : Ptr) (c : Cell) :
    (h.store q c).freeCount p = h.freeCount p := rfl

theorem Heap.freeCount_free_self (h : Heap) (p : Ptr) (hp : p ≠ 0) :
    (h.free p).freeCount p = h.freeCount p + 1 := by
  simp [Heap.free, Heap.freeCount, hp]

theorem Heap.freeCount_free_ne (h : Heap) (p q : Ptr) (hpq : p ≠ q) :
    (h.free q).freeCount p = h.freeCount p := by
  unfold Heap.free Heap.freeCount
  split_ifs
  · rfl
  · simp [List.count_cons, Ne.symm hpq]

theorem Heap.isLive_free_self (h : Heap) (p : Ptr) (hp : p ≠ 0) :
    (h.free p).isLive p = false := by
  simp [Heap.free, Heap.isLive, hp]

/-- A store inside the buffer succeeds. -/
theorem Heap.writeByte_inside (h : Heap) (p : Ptr) (i v : Nat) (bs : List Nat)
    (hr : h.read p = some (Cell.bytes bs)) (hi : i < bs.length) :
    h.writeByte p i v = Except.ok (h.store p (Cell.bytes (bs.set i v))) := by
  simp [Heap.writeByte, hr, hi]

/-- When the allocator has room, `malloc(sizeof(char))` hands out the next
address, with one byte behind it, and touches nothing else. -/
theorem Heap.malloc_char_ok (h : Heap) (hroom : 0 < h.room) :
    (h.malloc sizeofChar (Cell.bytes (List.replicate sizeofChar 0))).1 = h.next + 1 ∧
    (h.malloc sizeofChar (Cell.bytes (List.replicate sizeofChar 0))).2.read (h.next + 1) =
      some (Cell.bytes [0]) ∧
    (h.malloc sizeofChar (Cell.bytes (List.replicate sizeofChar 0))).2.frees = h.frees ∧
    (∀ q, q ≠ h.next + 1 →
      (h.malloc sizeofChar (Cell.bytes (List.replicate sizeofChar 0))).2.read q = h.read q) := by
  have hr : ¬ h.room = 0 := by omega
  refine ⟨?_, ?_, ?_, ?_⟩
  · simp [Heap.malloc, sizeofChar, hr]
  · simp [Heap.malloc, sizeofChar, hr, Heap.read, List.find?]
  · simp [Heap.malloc, sizeofChar, hr]
  · intro q hq
    unfold Heap.read
    by_cases hq0 : q = 0
    · simp [hq0]
    · simp [Heap.malloc, sizeofChar, hr, hq0, List.find?, Ne.symm hq]

/-- At most one byte fits the one-byte buffer: the stores succeed, leave one
byte behind the buffer, and touch neither the log of `free` nor other blocks. -/
theorem Heap.writeBytes_one_byte_buffer (h : Heap) (buf : Ptr) (d : List Nat)
    (hr : h.read buf = some (Cell.bytes [0])) (hd : d.length ≤ 1) :
    ∃ h1 b, h.writeBytes buf 0 d = Except.ok h1 ∧ h1.read buf = some (Cell.bytes [b]) ∧
      h1.frees = h.frees ∧ ∀ q, q ≠ buf → h1.read q = h.read q := by
  match d, hd with
  | [], _ => exact ⟨h, 0, rfl, hr, rfl, fun _ _ => rfl⟩
  | [v], _ =>
    refine ⟨h.store buf (Cell.bytes ([0].set 0 v)), v, ?_, ?_, rfl, ?_⟩
    · simp [Heap.writeBytes, Heap.writeByte_inside h buf 0 v [0] hr (by simp)]
    · rw [Heap.read_store h buf _ _ hr]; rfl
    · intro q hq
      exact Heap.read_store_ne h q buf _ hq
  | _ :: _ :: _, hd => simp at hd

theorem Heap.readBytes_one_byte_buffer (h : Heap) (buf : Ptr) (b n : Nat)
    (hr : h.read buf = some (Cell.bytes [b])) (hn : n ≤ 1) :
    h.readBytes buf n = Except.ok ([b].take n) := by
  simp [Heap.readBytes, hr, hn]

/-- C6, amended.  `nativeSendMsg2` and `nativeRecvMsg2` do not write the managed
message-control object, and release the native record with what SRT stored in
it.  For `nativeSendMsg2`, always: the managed object is on return as on entry;
a non-null native record is passed to `free` once more than before and is no
longer live; and when the translator handed back a live record and SRT stored
`m1` in it, `m1` is what the native record held after the call.  For
`nativeRecvMsg2`: every call that returns leaves the managed object as on
entry; and every call in which the allocator has room for the receive buffer,
the native record is not at the address handed out next, and SRT stores at most
one byte and reports at most one (the capacity of the receive buffer) does
return, with the same three facts. -/
theorem msgctrl_object_left_unchanged (T : Translators) (L : SrtLib S) (w : World S)
    (ju jmsgCtrl : JObject) :
    (∀ (jbuf : List Nat),
      (nativeSendMsg2 T L w ju jbuf jmsgCtrl).1.2 = jmsgCtrl ∧
      ((T.srt_msgctrl_from_java_to_native jmsgCtrl w.heap).1 ≠ 0 →
        (nativeSendMsg2 T L w ju jbuf jmsgCtrl).2.heap.freeCount
            (T.srt_msgctrl_from_java_to_native jmsgCtrl w.heap).1 =
          (T.srt_msgctrl_from_java_to_native jmsgCtrl w.heap).2.freeCount
            (T.srt_msgctrl_from_java_to_native jmsgCtrl w.heap).1 + 1 ∧
        (nativeSendMsg2 T L w ju jbuf jmsgCtrl).2.heap.isLive
            (T.srt_msgctrl_from_java_to_native jmsgCtrl w.heap).1 = false) ∧
      (∀ (m0 m1 : MsgCtrlFields),
        (T.srt_msgctrl_from_java_to_native jmsgCtrl w.heap).2.readMsgCtrl
            (T.srt_msgctrl_from_java_to_native jmsgCtrl w.heap).1 = some m0 →
        (L.srt_sendmsg2 w.srt (T.srt_socket_from_java_to_native ju) jbuf
            (jbuf.length : Int) (some m0)).1.2 = some m1 →
        (nativeSendMsg2 T L w ju jbuf jmsgCtrl).2.calls =
          w.calls ++ [SrtCall.sendmsg2 (T.srt_socket_from_java_to_native ju)
            (jbuf.length : Int) (T.srt_msgctrl_from_java_to_native jmsgCtrl w.heap).1
            (some m1)])) ∧
    (∀ (len : Int) (r : (JObject × JObject) × World S),
      nativeRecvMsg2 T L w ju len jmsgCtrl = Except.ok r → r.1.2 = jmsgCtrl) ∧
    (∀ (len : Int),
      0 < (T.srt_msgctrl_from_java_to_native jmsgCtrl w.heap).2.room →
      (T.srt_msgctrl_from_java_to_native jmsgCtrl w.heap).1 ≤
        (T.srt_msgctrl_from_java_to_native jmsgCtrl w.heap).2.next →
      (L.srt_recvmsg2 w.srt (T.srt_socket_from_java_to_native ju) len
        ((T.srt_msgctrl_from_java_to_native jmsgCtrl w.heap).2.readMsgCtrl
          (T.srt_msgctrl_from_java_to_native jmsgCtrl w.heap).1)).1.2.1.length ≤ 1 →
      (L.srt_recvmsg2 w.srt (T.srt_socket_from_java_to_native ju) len
        ((T.srt_msgctrl_from_java_to_native jmsgCtrl w.heap).2.readMsgCtrl
          (T.srt_msgctrl_from_java_to_native jmsgCtrl w.heap).1)).1.1 ≤ 1 →
      ∃ r, nativeRecvMsg2 T L w ju len jmsgCtrl = Except.ok r ∧ r.1.2 = jmsgCtrl ∧
        ((T.srt_msgctrl_from_java_to_native jmsgCtrl w.heap).1 ≠ 0 →
          r.2.heap.freeCount (T.srt_msgctrl_from_java_to_native jmsgCtrl w.heap).1 =
            (T.srt_msgctrl_from_java_to_native jmsgCtrl w.heap).2.freeCount
              (T.srt_msgctrl_from_java_to_native jmsgCtrl w.heap).1 + 1 ∧
          r.2.heap.isLive (T.srt_msgctrl_from_java_to_native jmsgCtrl w.heap).1 = false) ∧
        (∀ (m0 m1 : MsgCtrlFields),
          (T.srt_msgctrl_from_java_to_native jmsgCtrl w.heap).2.readMsgCtrl
              (T.srt_msgctrl_from_java_to_native jmsgCtrl w.heap).1 = some m0 →
          (L.srt_recvmsg2 w.srt (T.srt_socket_from_java_to_native ju) len
              (some m0)).1.2.2 = some m1 →
          r.2.calls =
            w.calls ++ [SrtCall.recvmsg2 (T.srt_socket_from_java_to_native ju)
              ((T.srt_msgctrl_from_java_to_native jmsgCtrl w.heap).2.next + 1) len
              (T.srt_msgctrl_from_java_to_native jmsgCtrl w.heap).1 (some m1)])) := by
  refine ⟨?_, ?_, ?_⟩
  · intro jbuf
    unfold nativeSendMsg2
    simp only
    generalize T.srt_msgctrl_from_java_to_native jmsgCtrl w.heap = t
    generalize T.srt_socket_from_java_to_native ju = u
    obtain ⟨p, ht⟩ := t
    simp only
    refine ⟨trivial, ?_, ?_⟩
    · intro hp0
      simp only [hp0, ne_eq, not_false_eq_true, if_true]
      refine ⟨?_, Heap.isLive_free_self _ p hp0⟩
      rw [Heap.freeCount_free_self _ p hp0]
      split <;> rfl
    · intro m0 m1 hm0 hm1
      rw [hm0, hm1]
      simp only
      rw [(Heap.readMsgCtrl_eq_some _ p m1).mpr
        (Heap.read_store ht p _ _ ((Heap.readMsgCtrl_eq_some ht p m0).mp hm0))]
  · intro len r h
    unfold nativeRecvMsg2 at h
    simp only at h
    split at h
    · cases h
    · split_ifs at h <;> (try split at h) <;> cases h <;> rfl
  · intro len
    unfold nativeRecvMsg2
    simp only
    generalize T.srt_msgctrl_from_java_to_native jmsgCtrl w.heap = t
    generalize T.srt_socket_from_java_to_native ju = u
    obtain ⟨p, ht⟩ := t
    simp only
    intro hroom hp hdata hres
    obtain ⟨hm1, hm2, hm3, hm4⟩ := Heap.malloc_char_ok ht hroom
    have hpb : p ≠ ht.next + 1 := Nat.ne_of_lt (Nat.lt_succ_of_le hp)
    have harg : (ht.malloc sizeofChar (Cell.bytes (List.replicate sizeofChar 0))).2.readMsgCtrl p =
        ht.readMsgCtrl p := by
      unfold Heap.readMsgCtrl
      rw [hm4 p hpb]
    rw [harg, hm1]
    generalize hreq : L.srt_recvmsg2 w.srt u len (ht.readMsgCtrl p) = r at hdata hres ⊢
    have hbuf0 : ¬ (ht.next + 1 = 0) := Nat.succ_ne_zero _
    have hh0 : ∀ (h0 : Heap),
        h0 = (match r.1.2.2 with
          | some c => (ht.malloc sizeofChar
              (Cell.bytes (List.replicate sizeofChar 0))).2.store p (Cell.msgctrl c)
          | none => (ht.malloc sizeofChar (Cell.bytes (List.replicate sizeofChar 0))).2) →
        h0.read (ht.next + 1) = some (Cell.bytes [0]) ∧ h0.frees = ht.frees ∧
        (∀ (m0 m1 : MsgCtrlFields), ht.readMsgCtrl p = some m0 → r.1.2.2 = some m1 →
          h0.read p = some (Cell.msgctrl m1)) := by
      intro h0 e
      subst e
      split
      · rename_i c hc
        refine ⟨?_, hm3, ?_⟩
        · rw [Heap.read_store_ne _ _ _ _ (Ne.symm hpb)]
          exact hm2
        · intro m0 m1 hm0 hm
          rw [hc] at hm
          cases hm
          have hp0 : (ht.malloc sizeofChar (Cell.bytes (List.replicate sizeofChar 0))).2.read p =
              some (Cell.msgctrl m0) := by
            rw [hm4 p hpb]
            exact (Heap.readMsgCtrl_eq_some ht p m0).mp hm0
          exact Heap.read_store _ p _ _ hp0
      · rename_i hc
        refine ⟨hm2, hm3, ?_⟩
        intro m0 m1 _ hm
        rw [hc] at hm
        cases hm
    generalize (match r.1.2.2 with
          | some c => (ht.malloc sizeofChar
              (Cell.bytes (List.replicate sizeofChar 0))).2.store p (Cell.msgctrl c)
          | none => (ht.malloc sizeofChar (Cell.bytes (List.replicate sizeofChar 0))).2) = heap0
      at hh0 ⊢
    obtain ⟨hr0, hf0, hc0⟩ := hh0 heap0 rfl
    obtain ⟨heap1, b, hw, hr1, hf1, ho1⟩ :=
      Heap.writeBytes_one_byte_buffer heap0 (ht.next + 1) r.1.2.1 hr0 hdata
    rw [hw]
    simp only
    have hfree : p ≠ 0 →
        (((if ht.next + 1 ≠ 0 then heap1.free (ht.next + 1) else heap1).free p).freeCount p =
          ht.freeCount p + 1 ∧
        ((if ht.next + 1 ≠ 0 then heap1.free (ht.next + 1) else heap1).free p).isLive p =
          false) := by
      intro hp0
      refine ⟨?_, Heap.isLive_free_self _ p hp0⟩
      rw [Heap.freeCount_free_self _ p hp0, if_pos hbuf0, Heap.freeCount_free_ne _ p _ hpb]
      unfold Heap.freeCount
      rw [hf1, hf0]
    have hafter : ∀ (m0 m1 : MsgCtrlFields), ht.readMsgCtrl p = some m0 →
        (L.srt_recvmsg2 w.srt u len (some m0)).1.2.2 = some m1 →
        heap1.readMsgCtrl p = some m1 := by
      intro m0 m1 hm0 hm1
      rw [hm0] at hreq
      rw [hreq] at hm1
      rw [Heap.readMsgCtrl_eq_some, ho1 p hpb]
      exact hc0 m0 m1 hm0 hm1
    by_cases hpos : 0 < r.1.1
    · have hn : r.1.1.toNat ≤ 1 := by omega
      rw [if_pos hpos, Heap.readBytes_one_byte_buffer heap1 _ b _ hr1 hn]
      refine ⟨_, rfl, rfl, ?_, ?_⟩
      · intro hp0
        simp only [hp0, ne_eq, not_false_eq_true, if_true]
        exact hfree hp0
      · intro m0 m1 hm0 hm1
        simp only [hafter m0 m1 hm0 hm1]
    · rw [if_neg hpos]
      refine ⟨_, rfl, rfl, ?_, ?_⟩
      · intro hp0
        simp only [hp0, ne_eq, not_false_eq_true, if_true]
        exact hfree hp0
      · intro m0 m1 hm0 hm1
        simp only [hafter m0 m1 hm0 hm1]

/-- Witness of the amended C6: three bytes sent, and one byte received, on
socket `1` with a managed message-control object whose native record the
translator puts at address `1`; SRT stamps the record with sequence number
`1000` and message number `1`, the record is freed once, and the managed object
is on return as on entry. -/
theorem msgctrl_object_left_unchanged_witness :
    (sampleTranslators.srt_msgctrl_from_java_to_native (JObject.msgCtrl ⟨0, -1, false, 0, 0⟩)
      sampleWorld.heap).1 ≠ 0 ∧
    ((nativeSendMsg2 sampleTranslators sampleSrt sampleWorld (JObject.srtSocket 1) [1, 2, 3]
        (JObject.msgCtrl ⟨0, -1, false, 0, 0⟩)).2.heap.freeCount 1 = 1 ∧
      (nativeSendMsg2 sampleTranslators sampleSrt sampleWorld (JObject.srtSocket 1) [1, 2, 3]
        (JObject.msgCtrl ⟨0, -1, false, 0, 0⟩)).2.heap.isLive 1 = false) ∧
    (0 < (sampleTranslators.srt_msgctrl_from_java_to_native
        (JObject.msgCtrl ⟨0, -1, false, 0, 0⟩) sampleWorld.heap).2.room ∧
      (sampleTranslators.srt_msgctrl_from_java_to_native
        (JObject.msgCtrl ⟨0, -1, false, 0, 0⟩) sampleWorld.heap).1 ≤
      (sampleTranslators.srt_msgctrl_from_java_to_native
        (JObject.msgCtrl ⟨0, -1, false, 0, 0⟩) sampleWorld.heap).2.next ∧
      (sampleSrt.srt_recvmsg2 sampleWorld.srt 1 1
        (some ⟨0, -1, false, 0, 0⟩)).1.2.1.length ≤ 1 ∧
      (sampleSrt.srt_recvmsg2 sampleWorld.srt 1 1 (some ⟨0, -1, false, 0, 0⟩)).1.1 ≤ 1) ∧
    (∃ r, nativeRecvMsg2 sampleTranslators sampleSrt sampleWorld (JObject.srtSocket 1) 1
        (JObject.msgCtrl ⟨0, -1, false, 0, 0⟩) = Except.ok r ∧
      r.1.2 = JObject.msgCtrl ⟨0, -1, false, 0, 0⟩ ∧
      r.2.heap.freeCount 1 = 1 ∧ r.2.heap.isLive 1 = false ∧
      r.2.calls = [SrtCall.recvmsg2 1 2 1 1 (some ⟨0, -1, false, 1000, 1⟩)]) := by
  refine ⟨by decide, ?_, ⟨by decide, by decide, by decide, by decide⟩, ?_⟩
  · exact ((msgctrl_object_left_unchanged sampleTranslators sampleSrt sampleWorld
      (JObject.srtSocket 1) (JObject.msgCtrl ⟨0, -1, false, 0, 0⟩)).1 [1, 2, 3]).2.1
      (by decide)
  · obtain ⟨r, h1, h2, h3, h4⟩ :=
      (msgctrl_object_left_unchanged sampleTranslators sampleSrt sampleWorld
        (JObject.srtSocket 1) (JObject.msgCtrl ⟨0, -1, false, 0, 0⟩)).2.2 1
        (by decide) (by decide) (by decide) (by decide)
    exact ⟨r, h1, h2, (h3 (by decide)).1, (h3 (by decide)).2,
      h4 ⟨0, -1, false, 0, 0⟩ ⟨0, -1, false, 1000, 1⟩ (by decide) (by decide)⟩

/-! ## Scratch buffers -/

/-- A non-null scratch address reaches no `free` in `nativeBind`,
`nativeConnect` and `nativeSetSockOpt`: the allocator is left as the translator
left it. -/
theorem nonnull_scratch_reaches_no_free (T : Translators) (L : SrtLib S) (w : World S) :
    (∀ (ju addr : JObject), (T.inet_socket_address_from_java_to_native addr w.heap).1 ≠ 0 →
      (nativeBind T L w ju addr).2.heap =
        (T.inet_socket_address_from_java_to_native addr w.heap).2 ∧
      (nativeConnect T L w ju addr).2.heap =
        (T.inet_socket_address_from_java_to_native addr w.heap).2) ∧
    (∀ (ju : JObject) (level : Int) (jopt joptval : JObject),
      0 < T.srt_sockopt_from_java_to_native jopt →
      (T.srt_optval_from_java_to_native joptval 0 w.heap).1.1 ≠ 0 →
      (nativeSetSockOpt T L w ju level jopt joptval).2.heap =
        (T.srt_optval_from_java_to_native joptval 0 w.heap).2) := by
  constructor
  · intro ju addr h
    simp [nativeBind, nativeConnect, h]
  · intro ju level jopt joptval hopt h
    have hopt2 : ¬ (T.srt_sockopt_from_java_to_native jopt ≤ 0) := by omega
    simp [nativeSetSockOpt, h, hopt2]

/-- C9 at concrete calls: the translator hands `nativeBind`, `nativeConnect` and
`nativeSetSockOpt` a live scratch buffer at address `1`; when the entry point
returns, the buffer is still live and was never passed to `free`, so the set of
live allocations has grown. -/
theorem scratch_buffer_is_not_freed :
    sampleWorld.heap.liveAddrs = [] ∧
    (sampleTranslators.inet_socket_address_from_java_to_native
      (JObject.inetSocketAddress 2130706433 9000) sampleWorld.heap).1 = 1 ∧
    (nativeBind sampleTranslators sampleSrt sampleWorld (JObject.srtSocket 1)
      (JObject.inetSocketAddress 2130706433 9000)).2.heap.liveAddrs = [1] ∧
    (nativeBind sampleTranslators sampleSrt sampleWorld (JObject.srtSocket 1)
      (JObject.inetSocketAddress 2130706433 9000)).2.heap.freeCount 1 = 0 ∧
    (nativeConnect sampleTranslators sampleSrt sampleWorld (JObject.srtSocket 1)
      (JObject.inetSocketAddress 2130706433 9000)).2.heap.liveAddrs = [1] ∧
    (nativeConnect sampleTranslators sampleSrt sampleWorld (JObject.srtSocket 1)
      (JObject.inetSocketAddress 2130706433 9000)).2.heap.freeCount 1 = 0 ∧
    (sampleTranslators.srt_optval_from_java_to_native (JObject.boxedInt 1316) 0
      sampleWorld.heap).1 = (1, 4) ∧
    (nativeSetSockOpt sampleTranslators sampleSrt sampleWorld (JObject.srtSocket 1) 0
      (JObject.enumValue "PAYLOADSIZE") (JObject.boxedInt 1316)).2.heap.liveAddrs = [1] ∧
    (nativeSetSockOpt sampleTranslators sampleSrt sampleWorld (JObject.srtSocket 1) 0
      (JObject.enumValue "PAYLOADSIZE") (JObject.boxedInt 1316)).2.heap.freeCount 1 = 0 := by
  decide

end SrtGlue
